import Mathlib

/-!
Shallow embedding of `sipgen/pybinding.c`, the transitional Python binding
layer of the sip5 code generator, together with proofs about its marshalling
bridges, diagnostic reporter and operation-dispatch entry points.

Modelling conventions:
* Host (Python) values are the inductive `PyObject`.  A text value carries,
  besides its character content, one flag per partial encoding operation of
  the host runtime (filesystem-default, locale, UTF-8) saying whether that
  encoding succeeds on it; the encoded byte string is abstracted as the
  character content itself (byte-level re-encoding is irrelevant to every
  claim, which only talk about success, order, count and null-ness).
* Native pointers are `Nat`, with `0` playing NULL.  The allocator
  `sipMalloc` never yields NULL (on exhaustion the real one aborts the
  process), modelled by drawing fresh pointers from a counter.
* The `static` variables of `warning`/`fatalStart` and the two global policy
  flags form the record `DiagState`; writing to `stderr` appends to its
  `output` field and `exit(1)` sets its `exited` field.
* C out-parameters become components of the returned value.  In particular
  `stringList_convertor` returns both its status and the final value of
  `*slp`, because the partially built list on failure is observable.
* Each dispatch entry point returns the produced host value (or the error)
  paired with the list of native toolchain calls it performed, in order.
  `PyArg_ParseTuple` is modelled unit by unit, left to right, aborting on
  the first failing conversion, after an arity check on the argument tuple.
-/

set_option autoImplicit false

namespace Pybinding

/-- Error values surfaced to the host, mirroring the exceptions the C layer
and the host runtime raise: `typeError` for `PyErr_SetString(PyExc_TypeError, …)`
and for type-mismatch failures inside `PyArg_ParseTuple` units;
`encodingError` for a failing `PyUnicode_Encode…` call; `overflowError` for
an out-of-range `i` unit; `invalidHandle` for `PyCapsule_GetPointer`
returning NULL on a capsule whose stored pointer is null. -/
inductive PyErr where
  | typeError (msg : String)
  | encodingError
  | overflowError
  | invalidHandle
deriving Repr, DecidableEq

/-- A host text value: its character content plus one flag per partial host
encoding operation, saying whether that encoding succeeds on this value. -/
structure PyStr where
  chars : String
  fsOk : Bool
  localeOk : Bool
  utf8Ok : Bool
deriving Repr, DecidableEq

/-- Host values as far as this layer distinguishes them: the no-value marker
`Py_None`, booleans, integers, text values, lists, capsules (wrapping a
native pointer, `0` standing for NULL) and a stand-in for every other host
object. -/
inductive PyObject where
  | pyNone
  | pyBool (b : Bool)
  | pyInt (n : Int)
  | pyStr (s : PyStr)
  | pyList (xs : List PyObject)
  | pyCapsule (p : Nat)
  | pyOther
deriving Repr

/-- Truth value of a host object (`PyObject_IsTrue`), used by the `p` format
unit.  The stand-in `pyOther` is modelled as truthy. -/
def pyTruth : PyObject → Bool
  | .pyNone => false
  | .pyBool b => b
  | .pyInt n => n != 0
  | .pyStr s => !s.chars.isEmpty
  | .pyList xs => !xs.isEmpty
  | .pyCapsule _ => true
  | .pyOther => true

/-- Encoding of a host value with the filesystem-default codec
(`PyUnicode_EncodeFSDefault`): fails with a type error on non-text input and
with an encoding error on unrepresentable text. -/
def pyUnicode_EncodeFSDefault : PyObject → Except PyErr String
  | .pyStr s => if s.fsOk then .ok s.chars else .error .encodingError
  | _ => .error (.typeError "str expected")

/-- Encoding of a host value with the locale codec (`PyUnicode_EncodeLocale`):
fails with a type error on non-text input and with an encoding error on
unrepresentable text. -/
def pyUnicode_EncodeLocale : PyObject → Except PyErr String
  | .pyStr s => if s.localeOk then .ok s.chars else .error .encodingError
  | _ => .error (.typeError "str expected")

/-- The `s` format unit of `PyArg_ParseTuple`: a text value encoded as UTF-8,
anything else a type error. -/
def convert_s : PyObject → Except PyErr String
  | .pyStr s => if s.utf8Ok then .ok s.chars else .error .encodingError
  | _ => .error (.typeError "str expected")

/-- The `i` format unit of `PyArg_ParseTuple`: a host integer (booleans are
integers in the host runtime) checked against the range of a C `int`. -/
def convert_i : PyObject → Except PyErr Int
  | .pyBool b => .ok (if b then 1 else 0)
  | .pyInt n =>
      if -2147483648 ≤ n ∧ n < 2147483648 then .ok n else .error .overflowError
  | _ => .error (.typeError "an integer is required")

/-- The native singly-linked list of byte strings (`struct stringList` with
fields `s` and `next`); `nil` is the NULL list. -/
inductive stringList where
  | nil
  | node (s : String) (next : stringList)
deriving Repr, DecidableEq

/-- The ordered contents of a `stringList`, front to back. -/
def stringList.elems : stringList → List String
  | .nil => []
  | .node s rest => s :: rest.elems

/-- Build a `stringList` from a host-side list of byte strings, in order. -/
def stringList.ofList : List String → stringList
  | [] => .nil
  | s :: rest => .node s (stringList.ofList rest)

/-- Translation of `appendString`: walk to the tail of the list and attach a
fresh node holding `s` (the C version mutates through a `stringList **`; the
functional version returns the extended list). -/
def appendString : stringList → String → stringList
  | .nil, s => .node s .nil
  | .node t rest, s => .node t (appendString rest s)

/-- Repeated `appendString`, the effect of the convertor loop appending each
encoded element in turn. -/
def appendAllStrings : stringList → List String → stringList
  | acc, [] => acc
  | acc, s :: rest => appendAllStrings (appendString acc s) rest

/-- The element loop of `stringList_convertor`: encode each host element with
the locale codec and append it to `*slp`; on the first failing element stop,
returning the error and the list built so far (the C loop `return 0`s with
`*slp` still holding the already-appended prefix). -/
def slConvLoop : List PyObject → stringList → Except PyErr Unit × stringList
  | [], acc => (.ok (), acc)
  | el :: rest, acc =>
      match pyUnicode_EncodeLocale el with
      | .error e => (.error e, acc)
      | .ok b => slConvLoop rest (appendString acc b)

/-- Translation of `stringList_convertor`.  The result pairs the C return
status (`.ok ()` for 1, `.error e` for 0 with `e` the raised exception) with
the final value of the out-parameter `*slp`, which the C code sets to NULL
before doing anything else. -/
def stringList_convertor (obj : PyObject) : Except PyErr Unit × stringList :=
  match obj with
  | .pyNone => (.ok (), .nil)
  | .pyList xs => slConvLoop xs .nil
  | _ => (.error (.typeError "list of str expected"), .nil)

/-- Success-only view of `stringList_convertor`, the value a
`PyArg_ParseTuple` caller observes (on failure the whole call returns NULL
and the out value is dead). -/
def slConv (obj : PyObject) : Except PyErr stringList :=
  match stringList_convertor obj with
  | (.ok _, sl) => .ok sl
  | (.error e, _) => .error e

/-- Translation of `fs_convertor`: the no-value marker becomes a NULL path
(`Option.none`); any other host value is encoded with the filesystem-default
codec, a success always yielding a non-null byte string (`some`). -/
def fs_convertor (obj : PyObject) : Except PyErr (Option String) :=
  match obj with
  | .pyNone => .ok Option.none
  | _ =>
      match pyUnicode_EncodeFSDefault obj with
      | .error e => .error e
      | .ok b => .ok (some b)

/-- Translation of `sipSpec_convertor`: a non-capsule host value raises a
type error reading "parse tree expected"; a capsule whose stored pointer is
NULL makes `PyCapsule_GetPointer` return NULL (raising, modelled as
`invalidHandle`); otherwise the stored pointer is extracted unchanged.  The
convertor reads the capsule and never writes to it. -/
def sipSpec_convertor : PyObject → Except PyErr Nat
  | .pyCapsule p => if p = 0 then .error .invalidHandle else .ok p
  | _ => .error (.typeError "parse tree expected")

/-- The allocator `sipMalloc`, modelled on an allocation counter: the fresh
pointer `heap + 1` is never NULL (the real allocator aborts the process
rather than return NULL). -/
def sipMalloc (heap : Nat) : Nat := heap + 1

/-- The diagnostic-category argument of `warning`. -/
inductive Warning where
  | ParserWarning
  | DeprecationWarning
deriving Repr, DecidableEq

/-- The label chosen by the `switch` in `warning`. -/
def warningLabel : Warning → String
  | .ParserWarning => "Parser warning"
  | .DeprecationWarning => "Deprecation warning"

/-- The newline test `strchr(fmt, a newline) != NULL` of `warning`, as a scan
of the character sequence. -/
def containsNewline (fmt : String) : Bool :=
  fmt.data.any (fun c => c == '\n')

/-- Process-wide diagnostic state: the two global policy flags, the two
function-local `static start` flags of `warning` and `fatalStart`, the text
written to `stderr` so far, and the exit status once `exit` has run. -/
structure DiagState where
  warnings : Bool
  warnings_are_fatal : Bool
  warnStart : Bool
  fatalStartFlag : Bool
  output : String
  exited : Option Nat
deriving Repr, DecidableEq

/-- The diagnostic state at process start: both `static start` flags TRUE,
both policy flags FALSE, nothing written, process running. -/
def initDiagState : DiagState :=
  { warnings := false, warnings_are_fatal := false, warnStart := true,
    fatalStartFlag := true, output := "", exited := Option.none }

/-- Translation of `warning`.  The fragment `fmt` stands for the formatted
text (varargs formatting is abstracted away; the C newline test
`strchr(fmt, a newline)` then coincides with a test on the emitted text).
Suppression: a fragment is discarded when warnings are globally disabled
unless its category is `DeprecationWarning`.  A non-suppressed fragment is
prefixed with the category label if it starts a message, then written; a
fragment containing a newline completes the message: with
`warnings_are_fatal` set the process exits with status 1, otherwise the
start flag is raised again for the next message. -/
def warning (w : Warning) (fmt : String) (s : DiagState) : DiagState :=
  if s.warnings = false ∧ w ≠ Warning.DeprecationWarning then s
  else
    let s1 :=
      if s.warnStart then
        { s with output := s.output ++ "sip5: " ++ warningLabel w ++ ": ",
                 warnStart := false }
      else s
    let s2 := { s1 with output := s1.output ++ fmt }
    if containsNewline fmt then
      if s2.warnings_are_fatal then { s2 with exited := some 1 }
      else { s2 with warnStart := true }
    else s2

/-- Translation of `fatalStart`: write the "sip5: " prefix the first time
only, tracked by its own `static start` flag. -/
def fatalStart (s : DiagState) : DiagState :=
  if s.fatalStartFlag then
    { s with output := s.output ++ "sip5: ", fatalStartFlag := false }
  else s

/-- Translation of `fatal`: ensure the prefix via `fatalStart`, write the
formatted message (same varargs abstraction as `warning`), then `exit(1)`. -/
def fatal (fmt : String) (s : DiagState) : DiagState :=
  let s1 := fatalStart s
  { s1 with output := s1.output ++ fmt, exited := some 1 }

/-- The kwargs-support argument computed by `py_parse` for the native
`parse`. -/
inductive KwArgsMode where
  | AllKwArgs
  | NoKwArgs
deriving Repr, DecidableEq

/-- One invocation of a native toolchain operation, with the argument values
the binding layer hands over.  `parseCall` records the post-branch file
choice of `py_parse` (`useStdin` true exactly when the path argument was the
no-value marker, in which case the filename is the literal "stdin").  The
three single-path generators pass `pt->module` as their second C argument;
that field lives inside the opaque native object, outside this layer, so the
record keeps the pointer and the path.  In `generateCodeCall`, `pyDebugStr`
is the value produced by the final `s` format unit: the C format string has
eleven units for twelve address arguments, so that unit's result lands in
the storage of `py_debug` and `sipName` is passed to `generateCode`
uninitialised; the record keeps the well-defined converted values only. -/
inductive NativeCall where
  | parseCall (pt : Nat) (useStdin : Bool) (filename : String) (strict : Bool)
      (versions backstops xfeatures : stringList) (mode : KwArgsMode)
      (protHack : Bool)
  | transformCall (pt : Nat) (strict : Bool)
  | generateCodeCall (pt : Nat) (codeDir srcSuffix : Option String)
      (exceptions tracing releaseGIL : Bool) (parts : Int)
      (versions xfeatures : stringList) (docs : Bool) (pyDebugStr : String)
  | generateExtractsCall (pt : Nat) (extracts : stringList)
  | generateAPICall (pt : Nat) (apiFile : Option String)
  | generateXMLCall (pt : Nat) (xmlFile : Option String)
  | generateTypeHintsCall (pt : Nat) (pyiFile : Option String)
deriving Repr, DecidableEq

/-- Result of a dispatch entry point: the host value returned (or the raised
error), paired with the native toolchain calls performed, in order. -/
abbrev EPResult := Except PyErr PyObject × List NativeCall

/-- Translation of `py_parse` (format `O&pO&O&O&pp`): convert the seven
arguments left to right, allocate a fresh `sipSpec`, choose between the
given filename and stdin, invoke the native `parse` once, and wrap the fresh
pointer in a new capsule. -/
def py_parse (heap : Nat) (args : List PyObject) : EPResult :=
  match args with
  | [a1, a2, a3, a4, a5, a6, a7] =>
    match fs_convertor a1 with
    | .error e => (.error e, [])
    | .ok filename =>
      let strict := pyTruth a2
      match slConv a3 with
      | .error e => (.error e, [])
      | .ok versions =>
        match slConv a4 with
        | .error e => (.error e, [])
        | .ok backstops =>
          match slConv a5 with
          | .error e => (.error e, [])
          | .ok xfeatures =>
            let allKwArgs := pyTruth a6
            let protHack := pyTruth a7
            let pt := sipMalloc heap
            let useStdin := filename.isNone
            let fname := match filename with
              | some f => f
              | Option.none => "stdin"
            (.ok (.pyCapsule pt),
             [.parseCall pt useStdin fname strict versions backstops xfeatures
                (if allKwArgs then .AllKwArgs else .NoKwArgs) protHack])
  | _ => (.error (.typeError "wrong number of arguments"), [])

/-- Translation of `py_transform` (format `O&p`): resolve the handle, read
the strict flag, invoke the native `transform` once, return the no-value
marker. -/
def py_transform (args : List PyObject) : EPResult :=
  match args with
  | [a1, a2] =>
    match sipSpec_convertor a1 with
    | .error e => (.error e, [])
    | .ok pt => (.ok .pyNone, [.transformCall pt (pyTruth a2)])
  | _ => (.error (.typeError "wrong number of arguments"), [])

/-- Translation of `py_generateCode` (format `O&O&O&pppiO&O&ps`, eleven
units): convert the eleven arguments left to right and invoke the native
`generateCode` once. -/
def py_generateCode (args : List PyObject) : EPResult :=
  match args with
  | [a1, a2, a3, a4, a5, a6, a7, a8, a9, a10, a11] =>
    match sipSpec_convertor a1 with
    | .error e => (.error e, [])
    | .ok pt =>
      match fs_convertor a2 with
      | .error e => (.error e, [])
      | .ok codeDir =>
        match fs_convertor a3 with
        | .error e => (.error e, [])
        | .ok srcSuffix =>
          let exceptions := pyTruth a4
          let tracing := pyTruth a5
          let releaseGIL := pyTruth a6
          match convert_i a7 with
          | .error e => (.error e, [])
          | .ok parts =>
            match slConv a8 with
            | .error e => (.error e, [])
            | .ok versions =>
              match slConv a9 with
              | .error e => (.error e, [])
              | .ok xfeatures =>
                let docs := pyTruth a10
                match convert_s a11 with
                | .error e => (.error e, [])
                | .ok pyDebugStr =>
                  (.ok .pyNone,
                   [.generateCodeCall pt codeDir srcSuffix exceptions tracing
                      releaseGIL parts versions xfeatures docs pyDebugStr])
  | _ => (.error (.typeError "wrong number of arguments"), [])

/-- Translation of `py_generateExtracts` (format `O&O&`): resolve the handle,
convert the extracts list, invoke the native `generateExtracts` once. -/
def py_generateExtracts (args : List PyObject) : EPResult :=
  match args with
  | [a1, a2] =>
    match sipSpec_convertor a1 with
    | .error e => (.error e, [])
    | .ok pt =>
      match slConv a2 with
      | .error e => (.error e, [])
      | .ok extracts => (.ok .pyNone, [.generateExtractsCall pt extracts])
  | _ => (.error (.typeError "wrong number of arguments"), [])

/-- Translation of `py_generateAPI` (format `O&O&`): resolve the handle,
convert the path, invoke the native `generateAPI` once on the handle's
object (passing its module field) and the path. -/
def py_generateAPI (args : List PyObject) : EPResult :=
  match args with
  | [a1, a2] =>
    match sipSpec_convertor a1 with
    | .error e => (.error e, [])
    | .ok pt =>
      match fs_convertor a2 with
      | .error e => (.error e, [])
      | .ok apiFile => (.ok .pyNone, [.generateAPICall pt apiFile])
  | _ => (.error (.typeError "wrong number of arguments"), [])

/-- Translation of `py_generateXML` (format `O&O&`), same shape as
`py_generateAPI`. -/
def py_generateXML (args : List PyObject) : EPResult :=
  match args with
  | [a1, a2] =>
    match sipSpec_convertor a1 with
    | .error e => (.error e, [])
    | .ok pt =>
      match fs_convertor a2 with
      | .error e => (.error e, [])
      | .ok xmlFile => (.ok .pyNone, [.generateXMLCall pt xmlFile])
  | _ => (.error (.typeError "wrong number of arguments"), [])

/-- Translation of `py_generateTypeHints` (format `O&O&`), same shape as
`py_generateAPI`. -/
def py_generateTypeHints (args : List PyObject) : EPResult :=
  match args with
  | [a1, a2] =>
    match sipSpec_convertor a1 with
    | .error e => (.error e, [])
    | .ok pt =>
      match fs_convertor a2 with
      | .error e => (.error e, [])
      | .ok pyiFile => (.ok .pyNone, [.generateTypeHintsCall pt pyiFile])
  | _ => (.error (.typeError "wrong number of arguments"), [])

/-- Orchestration contract of one entry-point result: either an error was
raised and no native operation ran, or a host value was produced and exactly
one native operation ran. -/
def epOK (r : EPResult) : Prop :=
  (∃ e, r.1 = .error e ∧ r.2 = []) ∨ (∃ v c, r.1 = .ok v ∧ r.2 = [c])

/-- Appending a string puts it exactly at the tail. -/
theorem elems_appendString (l : stringList) (s : String) :
    (appendString l s).elems = l.elems ++ [s] := by
  induction l with
  | nil => rfl
  | node t rest ih => simp [appendString, stringList.elems, ih]

/-- Repeated appending concatenates in order. -/
theorem elems_appendAllStrings (l : List String) (acc : stringList) :
    (appendAllStrings acc l).elems = acc.elems ++ l := by
  induction l generalizing acc with
  | nil => simp [appendAllStrings]
  | cons s rest ih => simp [appendAllStrings, ih, elems_appendString]

/-- The convertor loop over elements that all encode: it succeeds and appends
each encoded element in input order. -/
theorem slConvLoop_all_ok (xs : List PyStr) (acc : stringList)
    (h : ∀ x ∈ xs, x.localeOk = true) :
    slConvLoop (xs.map PyObject.pyStr) acc =
      (.ok (), appendAllStrings acc (xs.map PyStr.chars)) := by
  induction xs generalizing acc with
  | nil => rfl
  | cons x rest ih =>
    have hx : x.localeOk = true := h x (List.mem_cons_self x rest)
    simp only [List.map_cons, slConvLoop, pyUnicode_EncodeLocale, hx, if_true]
    rw [ih (appendString acc x.chars) (fun y hy => h y (List.mem_cons_of_mem x hy))]
    simp [appendAllStrings]

/-- The convertor loop hitting its first non-encodable element: it stops with
an encoding error, having appended exactly the elements before it. -/
theorem slConvLoop_first_err (pre : List PyStr) (bad : PyStr)
    (post : List PyObject) (acc : stringList)
    (hpre : ∀ x ∈ pre, x.localeOk = true) (hbad : bad.localeOk = false) :
    slConvLoop (pre.map PyObject.pyStr ++ PyObject.pyStr bad :: post) acc =
      (.error .encodingError, appendAllStrings acc (pre.map PyStr.chars)) := by
  induction pre generalizing acc with
  | nil => simp [slConvLoop, pyUnicode_EncodeLocale, hbad, appendAllStrings]
  | cons x rest ih =>
    have hx : x.localeOk = true := hpre x (List.mem_cons_self x rest)
    have ih' := ih (appendString acc x.chars)
      (fun y hy => hpre y (List.mem_cons_of_mem x hy))
    simp only [List.map_cons, List.cons_append, List.append_eq, slConvLoop,
      pyUnicode_EncodeLocale, hx, if_true] at ih' ⊢
    rw [ih']
    simp [appendAllStrings]

/-- C2: converting a host list of encodable text values via the String-List
Bridge succeeds and yields a native list with exactly one byte string per
input element, in input order and of the same length; converting the
no-value marker succeeds with the empty (NULL) list. -/
theorem stringList_bridge_preserves_order (xs : List PyStr)
    (h : ∀ x ∈ xs, x.localeOk = true) :
    ((stringList_convertor (.pyList (xs.map PyObject.pyStr))).1 = .ok () ∧
     (stringList_convertor (.pyList (xs.map PyObject.pyStr))).2.elems =
       xs.map PyStr.chars ∧
     (stringList_convertor (.pyList (xs.map PyObject.pyStr))).2.elems.length =
       xs.length) ∧
    stringList_convertor .pyNone = (.ok (), .nil) := by
  have hloop := slConvLoop_all_ok xs .nil h
  refine ⟨⟨?_, ?_, ?_⟩, rfl⟩ <;>
    simp [stringList_convertor, hloop, elems_appendAllStrings, stringList.elems]

/-- C2 witness: a concrete two-element list of encodable text values. -/
theorem stringList_bridge_preserves_order_witness :
    ((stringList_convertor (.pyList
        ([⟨"a", true, true, true⟩, ⟨"bc", true, true, true⟩].map
          PyObject.pyStr))).1 = .ok () ∧
     (stringList_convertor (.pyList
        ([⟨"a", true, true, true⟩, ⟨"bc", true, true, true⟩].map
          PyObject.pyStr))).2.elems =
       ([⟨"a", true, true, true⟩, ⟨"bc", true, true, true⟩] :
         List PyStr).map PyStr.chars ∧
     (stringList_convertor (.pyList
        ([⟨"a", true, true, true⟩, ⟨"bc", true, true, true⟩].map
          PyObject.pyStr))).2.elems.length = 2) ∧
    stringList_convertor .pyNone = (.ok (), .nil) :=
  stringList_bridge_preserves_order
    [⟨"a", true, true, true⟩, ⟨"bc", true, true, true⟩] (by decide)

/-- C7: a host value that is neither the no-value marker nor a list fails in
the String-List Bridge with the type error "list of str expected", the
out-parameter holding no list (NULL). -/
theorem stringList_bridge_type_error (obj : PyObject)
    (h1 : obj ≠ .pyNone) (h2 : ∀ xs, obj ≠ .pyList xs) :
    stringList_convertor obj =
      (.error (.typeError "list of str expected"), .nil) := by
  cases obj
  case pyNone => exact absurd rfl h1
  case pyList xs => exact absurd rfl (h2 xs)
  all_goals rfl

/-- C7 witness: a host integer is rejected with the type error and a NULL
out value. -/
theorem stringList_bridge_type_error_witness :
    stringList_convertor (.pyInt 3) =
      (.error (.typeError "list of str expected"), .nil) :=
  stringList_bridge_type_error (.pyInt 3) (by simp) (fun xs => by simp)

/-- C8: a host list whose elements encode up to a first non-encodable text
value fails with an encoding error, and the out-parameter holds exactly the
encoded prefix before the failing element — nothing at or after it. -/
theorem stringList_bridge_encoding_abort (pre : List PyStr) (bad : PyStr)
    (post : List PyObject)
    (hpre : ∀ x ∈ pre, x.localeOk = true) (hbad : bad.localeOk = false) :
    (stringList_convertor
      (.pyList (pre.map PyObject.pyStr ++ PyObject.pyStr bad :: post))).1 =
        .error .encodingError ∧
    (stringList_convertor
      (.pyList (pre.map PyObject.pyStr ++ PyObject.pyStr bad :: post))).2.elems =
        pre.map PyStr.chars := by
  have hloop := slConvLoop_first_err pre bad post .nil hpre hbad
  refine ⟨?_, ?_⟩ <;>
    simp [stringList_convertor, hloop, elems_appendAllStrings, stringList.elems]

/-- C8 witness: one encodable element followed by a non-encodable one and a
trailing element; the out value holds only the first. -/
theorem stringList_bridge_encoding_abort_witness :
    (stringList_convertor
      (.pyList ([⟨"ok", true, true, true⟩].map PyObject.pyStr ++
        PyObject.pyStr ⟨"bad", true, false, true⟩ ::
          [PyObject.pyStr ⟨"tail", true, true, true⟩]))).1 =
        .error .encodingError ∧
    (stringList_convertor
      (.pyList ([⟨"ok", true, true, true⟩].map PyObject.pyStr ++
        PyObject.pyStr ⟨"bad", true, false, true⟩ ::
          [PyObject.pyStr ⟨"tail", true, true, true⟩]))).2.elems =
        ([⟨"ok", true, true, true⟩] : List PyStr).map PyStr.chars :=
  stringList_bridge_encoding_abort [⟨"ok", true, true, true⟩]
    ⟨"bad", true, false, true⟩ [PyObject.pyStr ⟨"tail", true, true, true⟩]
    (by decide) (by decide)

/-- C5: the Path/Text Bridge maps the no-value marker to the NULL path and
any representable text value — the empty string included — to a non-null
encoded string; unrepresentable text fails with an encoding error; a text
value is never mapped to the NULL path. -/
theorem fs_bridge_none_vs_text :
    fs_convertor .pyNone = .ok Option.none ∧
    (∀ s : PyStr, s.fsOk = true → fs_convertor (.pyStr s) = .ok (some s.chars)) ∧
    (∀ s : PyStr, s.fsOk = false →
      fs_convertor (.pyStr s) = .error .encodingError) ∧
    (∀ s : PyStr, fs_convertor (.pyStr s) ≠ .ok Option.none) := by
  refine ⟨rfl, ?_, ?_, ?_⟩
  · intro s hs; simp [fs_convertor, pyUnicode_EncodeFSDefault, hs]
  · intro s hs; simp [fs_convertor, pyUnicode_EncodeFSDefault, hs]
  · intro s
    by_cases hs : s.fsOk <;>
      simp [fs_convertor, pyUnicode_EncodeFSDefault, hs]

/-- C5 witness: the empty string maps to a non-null encoded string, distinct
from the NULL path of the no-value marker, and unrepresentable text fails. -/
theorem fs_bridge_none_vs_text_witness :
    fs_convertor (.pyStr ⟨"", true, true, true⟩) = .ok (some "") ∧
    fs_convertor (.pyStr ⟨"x", false, true, true⟩) = .error .encodingError ∧
    fs_convertor (.pyStr ⟨"", true, true, true⟩) ≠ .ok Option.none :=
  ⟨fs_bridge_none_vs_text.2.1 ⟨"", true, true, true⟩ rfl,
   fs_bridge_none_vs_text.2.2.1 ⟨"x", false, true, true⟩ rfl,
   fs_bridge_none_vs_text.2.2.2 ⟨"", true, true, true⟩⟩

/-- C3: with warnings disabled a `ParserWarning` report is a complete no-op;
a `DeprecationWarning` report behaves the same whatever the warnings-enabled
flag says (only that flag itself differs between the two states); and for
every non-suppressed report of either category the process terminates (with
status 1) exactly when the fragment completes a message while
fatal-on-warning is set — the same condition for both categories. -/
theorem warning_category_policy (s : DiagState) (fmt : String) :
    (s.warnings = false → warning .ParserWarning fmt s = s) ∧
    (∀ b₁ b₂ : Bool,
      (warning .DeprecationWarning fmt { s with warnings := b₁ }).output =
        (warning .DeprecationWarning fmt { s with warnings := b₂ }).output ∧
      (warning .DeprecationWarning fmt { s with warnings := b₁ }).warnStart =
        (warning .DeprecationWarning fmt { s with warnings := b₂ }).warnStart ∧
      (warning .DeprecationWarning fmt { s with warnings := b₁ }).exited =
        (warning .DeprecationWarning fmt { s with warnings := b₂ }).exited) ∧
    (∀ w : Warning, ¬(s.warnings = false ∧ w ≠ Warning.DeprecationWarning) →
      ((warning w fmt s).exited = some 1 ↔
        (containsNewline fmt = true ∧ s.warnings_are_fatal = true) ∨
          s.exited = some 1)) := by
  refine ⟨fun hw => by simp [warning, hw], fun b₁ b₂ => ?_, fun w hw => ?_⟩
  · by_cases h1 : s.warnStart <;> by_cases h2 : containsNewline fmt <;>
      by_cases h3 : s.warnings_are_fatal <;>
      simp [warning, h1, h2, h3]
  · have hns : ¬(s.warnings = false ∧ w ≠ Warning.DeprecationWarning) := hw
    by_cases h1 : s.warnStart <;> by_cases h2 : containsNewline fmt <;>
      by_cases h3 : s.warnings_are_fatal <;>
      simp [warning, hns, h1, h2, h3]

/-- C3 witness: a suppressed parser warning at the initial state is a no-op;
a deprecation report writes the same text with warnings on or off; and at
the initial state (fatal-on-warning clear) a deprecation report never
terminates the process. -/
theorem warning_category_policy_witness :
    warning .ParserWarning "boom" initDiagState = initDiagState ∧
    (warning .DeprecationWarning "boom"
        { initDiagState with warnings := true }).output =
      (warning .DeprecationWarning "boom"
        { initDiagState with warnings := false }).output ∧
    ((warning .DeprecationWarning "boom" initDiagState).exited = some 1 ↔
      (containsNewline "boom" = true ∧
        initDiagState.warnings_are_fatal = true) ∨
        initDiagState.exited = some 1) :=
  ⟨(warning_category_policy initDiagState "boom").1 rfl,
   ((warning_category_policy initDiagState "boom").2.1 true false).1,
   (warning_category_policy initDiagState "boom").2.2
     .DeprecationWarning (by simp)⟩

/-- A report never changes the two global policy flags. -/
theorem warning_preserves_flags (s : DiagState) (w : Warning) (fmt : String) :
    (warning w fmt s).warnings = s.warnings ∧
    (warning w fmt s).warnings_are_fatal = s.warnings_are_fatal := by
  by_cases h0 : s.warnings = false ∧ w ≠ Warning.DeprecationWarning <;>
    by_cases h1 : s.warnStart <;> by_cases h2 : containsNewline fmt <;>
    by_cases h3 : s.warnings_are_fatal <;> simp [warning, h0, h1, h2, h3]

/-- Output of a non-suppressed report: the category-label prefix is written
exactly when the call starts a message, followed by the fragment. -/
theorem warning_not_suppressed_output (s : DiagState) (w : Warning)
    (fmt : String)
    (hsup : ¬(s.warnings = false ∧ w ≠ Warning.DeprecationWarning)) :
    (warning w fmt s).output =
      (if s.warnStart then s.output ++ "sip5: " ++ warningLabel w ++ ": " ++ fmt
       else s.output ++ fmt) := by
  by_cases h1 : s.warnStart <;> by_cases h2 : containsNewline fmt <;>
    by_cases h3 : s.warnings_are_fatal <;> simp [warning, hsup, h1, h2, h3]

/-- C4: a non-suppressed report whose fragment contains a line terminator
completes the message: with fatal-on-warning set the process exits with
status 1; otherwise the at-line-start flag is raised again, so the next
non-suppressed report emits a fresh category-label prefix before its
fragment.  The prefix of the completed message itself was written exactly
once: at the start of the message if the call began one, and not at all if
an earlier fragment had already written it. -/
theorem warning_message_completion (s : DiagState) (w : Warning) (fmt : String)
    (hsup : ¬(s.warnings = false ∧ w ≠ Warning.DeprecationWarning))
    (hnl : containsNewline fmt = true) :
    (s.warnings_are_fatal = true → (warning w fmt s).exited = some 1) ∧
    (s.warnings_are_fatal = false →
      (warning w fmt s).exited = s.exited ∧
      (warning w fmt s).warnStart = true ∧
      (∀ (w' : Warning) (fmt' : String),
        ¬(s.warnings = false ∧ w' ≠ Warning.DeprecationWarning) →
        (warning w' fmt' (warning w fmt s)).output =
          (warning w fmt s).output ++ "sip5: " ++ warningLabel w' ++ ": " ++
            fmt')) ∧
    (s.warnStart = true →
      (warning w fmt s).output =
        s.output ++ "sip5: " ++ warningLabel w ++ ": " ++ fmt) ∧
    (s.warnStart = false → (warning w fmt s).output = s.output ++ fmt) := by
  refine ⟨fun hfat => ?_, fun hfat => ?_, fun hst => ?_, fun hst => ?_⟩
  · by_cases h1 : s.warnStart <;> simp [warning, hsup, h1, hnl, hfat]
  · refine ⟨?_, ?_, ?_⟩
    · by_cases h1 : s.warnStart <;> simp [warning, hsup, h1, hnl, hfat]
    · by_cases h1 : s.warnStart <;> simp [warning, hsup, h1, hnl, hfat]
    · intro w' fmt' hsup'
      have hstart : (warning w fmt s).warnStart = true := by
        by_cases h1 : s.warnStart <;> simp [warning, hsup, h1, hnl, hfat]
      have hsup2 : ¬((warning w fmt s).warnings = false ∧
          w' ≠ Warning.DeprecationWarning) := by
        rw [(warning_preserves_flags s w fmt).1]; exact hsup'
      rw [warning_not_suppressed_output (warning w fmt s) w' fmt' hsup2,
        if_pos hstart]
  · by_cases h3 : s.warnings_are_fatal <;> simp [warning, hsup, hst, hnl, h3]
  · by_cases h3 : s.warnings_are_fatal <;> simp [warning, hsup, hst, hnl, h3]

/-- C4 witness: with warnings enabled and fatal-on-warning set, one parser
warning ending in a newline exits with status 1 and its output is the single
prefixed line; with fatal-on-warning clear the at-line-start flag is raised
again instead. -/
theorem warning_message_completion_witness :
    (warning .ParserWarning "oops\n"
      { initDiagState with warnings := true,
                           warnings_are_fatal := true }).exited = some 1 ∧
    (warning .ParserWarning "oops\n"
      { initDiagState with warnings := true,
                           warnings_are_fatal := true }).output =
      ({ initDiagState with warnings := true,
                            warnings_are_fatal := true } : DiagState).output ++
        "sip5: " ++ warningLabel .ParserWarning ++ ": " ++ "oops\n" ∧
    (warning .ParserWarning "oops\n"
      { initDiagState with warnings := true }).warnStart = true :=
  ⟨(warning_message_completion
      { initDiagState with warnings := true, warnings_are_fatal := true }
      .ParserWarning "oops\n" (by simp) (by decide)).1 rfl,
   (warning_message_completion
      { initDiagState with warnings := true, warnings_are_fatal := true }
      .ParserWarning "oops\n" (by simp) (by decide)).2.2.1 rfl,
   ((warning_message_completion { initDiagState with warnings := true }
      .ParserWarning "oops\n" (by simp) (by decide)).2.1 rfl).2.1⟩

/-- C9: `fatal` writes the "sip5: " error prefix exactly when no fatal-start
call has written it before, then the message, and always exits with status 1
— whatever every flag of the diagnostic state says; once the prefix is down,
a further fatal-start is a no-op, so the prefix is never repeated. -/
theorem fatal_always_exits (s : DiagState) (fmt : String) :
    (fatal fmt s).exited = some 1 ∧
    (fatal fmt s).output =
      (if s.fatalStartFlag then s.output ++ "sip5: " ++ fmt
       else s.output ++ fmt) ∧
    (fatal fmt s).fatalStartFlag = false ∧
    fatalStart (fatal fmt s) = fatal fmt s := by
  by_cases h : s.fatalStartFlag <;> simp [fatal, fatalStart, h]

/-- C10: a `ParserWarning` report while warnings are globally disabled
leaves the entire diagnostic state untouched: nothing written, the
at-line-start flag keeps its value, and a running process stays running
regardless of the fatal-on-warning flag. -/
theorem suppressed_warning_noop (s : DiagState) (fmt : String)
    (h : s.warnings = false) :
    warning .ParserWarning fmt s = s ∧
    (warning .ParserWarning fmt s).output = s.output ∧
    (warning .ParserWarning fmt s).warnStart = s.warnStart ∧
    (s.exited = Option.none →
      (warning .ParserWarning fmt s).exited = Option.none) := by
  have hid : warning .ParserWarning fmt s = s := by simp [warning, h]
  exact ⟨hid, by rw [hid], by rw [hid], fun he => by rw [hid]; exact he⟩

/-- C10 witness: a parser warning at the initial state (warnings disabled,
fatal-on-warning set) changes nothing and does not terminate the process. -/
theorem suppressed_warning_noop_witness :
    warning .ParserWarning "w\n"
      { initDiagState with warnings_are_fatal := true } =
      { initDiagState with warnings_are_fatal := true } ∧
    (warning .ParserWarning "w\n"
      { initDiagState with warnings_are_fatal := true }).output =
      ({ initDiagState with warnings_are_fatal := true } : DiagState).output ∧
    (warning .ParserWarning "w\n"
      { initDiagState with warnings_are_fatal := true }).warnStart =
      ({ initDiagState with warnings_are_fatal := true } : DiagState).warnStart ∧
    (({ initDiagState with warnings_are_fatal := true } : DiagState).exited =
        Option.none →
      (warning .ParserWarning "w\n"
        { initDiagState with warnings_are_fatal := true }).exited =
        Option.none) :=
  suppressed_warning_noop { initDiagState with warnings_are_fatal := true }
    "w\n" rfl

/-- C1: a handle produced by a successful `py_parse` is a capsule around the
freshly allocated, non-null specification pointer; resolving it — a pure
read — yields that pointer, and the unchanged handle is accepted by
`py_transform` and by every generation entry point, each resolving it to the
same pointer without an invalid-handle error; a capsule whose stored pointer
is null is always rejected. -/
theorem parse_handle_roundtrip (heap : Nat) (args : List PyObject)
    (h : PyObject) (calls : List NativeCall)
    (hp : py_parse heap args = (.ok h, calls)) :
    h = .pyCapsule (sipMalloc heap) ∧
    sipMalloc heap ≠ 0 ∧
    sipSpec_convertor h = .ok (sipMalloc heap) ∧
    py_transform [h, .pyBool true] =
      (.ok .pyNone, [.transformCall (sipMalloc heap) true]) ∧
    py_generateExtracts [h, .pyNone] =
      (.ok .pyNone, [.generateExtractsCall (sipMalloc heap) .nil]) ∧
    py_generateAPI [h, .pyNone] =
      (.ok .pyNone, [.generateAPICall (sipMalloc heap) Option.none]) ∧
    py_generateXML [h, .pyNone] =
      (.ok .pyNone, [.generateXMLCall (sipMalloc heap) Option.none]) ∧
    py_generateTypeHints [h, .pyNone] =
      (.ok .pyNone, [.generateTypeHintsCall (sipMalloc heap) Option.none]) ∧
    py_generateCode [h, .pyNone, .pyNone, .pyBool true, .pyBool false,
        .pyBool false, .pyInt 0, .pyNone, .pyNone, .pyBool false,
        .pyStr ⟨"sip", true, true, true⟩] =
      (.ok .pyNone,
       [.generateCodeCall (sipMalloc heap) Option.none Option.none true false
          false 0 .nil .nil false "sip"]) ∧
    sipSpec_convertor (.pyCapsule 0) = .error .invalidHandle := by
  have hcap : h = PyObject.pyCapsule (sipMalloc heap) := by
    unfold py_parse at hp
    split at hp
    · repeat' split at hp
      all_goals simp_all
    · simp at hp
  subst hcap
  have hnz : sipMalloc heap ≠ 0 := Nat.succ_ne_zero heap
  refine ⟨rfl, hnz, ?_, ?_, ?_, ?_, ?_, ?_, ?_, ?_⟩ <;>
    simp [sipSpec_convertor, py_transform, py_generateExtracts, py_generateAPI,
      py_generateXML, py_generateTypeHints, py_generateCode, fs_convertor,
      slConv, stringList_convertor, convert_i, convert_s, pyTruth, hnz]

/-- C1 witness: a concrete seven-argument parse call (read from stdin, no
version lists) produces capsule 1, and every downstream entry point accepts
it. -/
theorem parse_handle_roundtrip_witness :
    PyObject.pyCapsule 1 = PyObject.pyCapsule (sipMalloc 0) ∧
    sipMalloc 0 ≠ 0 ∧
    sipSpec_convertor (.pyCapsule 1) = .ok (sipMalloc 0) ∧
    py_transform [.pyCapsule 1, .pyBool true] =
      (.ok .pyNone, [.transformCall (sipMalloc 0) true]) ∧
    py_generateExtracts [.pyCapsule 1, .pyNone] =
      (.ok .pyNone, [.generateExtractsCall (sipMalloc 0) .nil]) ∧
    py_generateAPI [.pyCapsule 1, .pyNone] =
      (.ok .pyNone, [.generateAPICall (sipMalloc 0) Option.none]) ∧
    py_generateXML [.pyCapsule 1, .pyNone] =
      (.ok .pyNone, [.generateXMLCall (sipMalloc 0) Option.none]) ∧
    py_generateTypeHints [.pyCapsule 1, .pyNone] =
      (.ok .pyNone, [.generateTypeHintsCall (sipMalloc 0) Option.none]) ∧
    py_generateCode [.pyCapsule 1, .pyNone, .pyNone, .pyBool true,
        .pyBool false, .pyBool false, .pyInt 0, .pyNone, .pyNone,
        .pyBool false, .pyStr ⟨"sip", true, true, true⟩] =
      (.ok .pyNone,
       [.generateCodeCall (sipMalloc 0) Option.none Option.none true false
          false 0 .nil .nil false "sip"]) ∧
    sipSpec_convertor (.pyCapsule 0) = .error .invalidHandle :=
  parse_handle_roundtrip 0
    [.pyNone, .pyBool true, .pyNone, .pyNone, .pyNone, .pyBool false,
     .pyBool false]
    (.pyCapsule 1)
    [.parseCall 1 true "stdin" true .nil .nil .nil .NoKwArgs false]
    rfl

/-- C6: every dispatch entry point that drives the native toolchain is pure
orchestration — on any argument tuple it either raises an error having
performed no native call, or returns a host value having performed exactly
one native call. -/
theorem dispatch_single_native_call (heap : Nat) (args : List PyObject) :
    epOK (py_parse heap args) ∧ epOK (py_transform args) ∧
    epOK (py_generateCode args) ∧ epOK (py_generateExtracts args) ∧
    epOK (py_generateAPI args) ∧ epOK (py_generateXML args) ∧
    epOK (py_generateTypeHints args) := by
  refine ⟨?_, ?_, ?_, ?_, ?_, ?_, ?_⟩
  · unfold py_parse
    repeat' split
    all_goals simp [epOK]
  · unfold py_transform
    repeat' split
    all_goals simp [epOK]
  · unfold py_generateCode
    repeat' split
    all_goals simp [epOK]
  · unfold py_generateExtracts
    repeat' split
    all_goals simp [epOK]
  · unfold py_generateAPI
    repeat' split
    all_goals simp [epOK]
  · unfold py_generateXML
    repeat' split
    all_goals simp [epOK]
  · unfold py_generateTypeHints
    repeat' split
    all_goals simp [epOK]

end Pybinding
